import Mathlib

/-!
Shallow embedding of the rendering core of `generate_gif.py` (claude-pulse).

Modelling conventions:
* Python numbers are modelled exactly over `ℚ`; Python `round` (round half to
  even on floats) is modelled by `pyRound`.
* Python strings are Lean `String`s; f-string assembly becomes explicit
  concatenation in source order.
* Fallible composition (Python `ValueError` from `float(...)` and
  `ZeroDivisionError` from the extra-usage division) is modelled by
  `Except RenderError`, using the spec error taxonomy
  (`UnknownThemeError`, `InvalidExtraUsageError`).
-/

/-- Python `round` on an exact rational: round half to even. -/
def pyRound (q : ℚ) : ℤ :=
  if q - ⌊q⌋ < 1/2 then ⌊q⌋
  else if 1/2 < q - ⌊q⌋ then ⌊q⌋ + 1
  else if ⌊q⌋ % 2 = 0 then ⌊q⌋ else ⌊q⌋ + 1

theorem floor_le_pyRound (q : ℚ) : ⌊q⌋ ≤ pyRound q := by
  unfold pyRound; split_ifs <;> omega

theorem pyRound_le_floor_add_one (q : ℚ) : pyRound q ≤ ⌊q⌋ + 1 := by
  unfold pyRound; split_ifs <;> omega

theorem pyRound_intCast (n : ℤ) : pyRound (n : ℚ) = n := by
  unfold pyRound
  rw [Int.floor_intCast]
  simp

theorem le_pyRound_of_le (n : ℤ) (q : ℚ) (h : (n : ℚ) ≤ q) : n ≤ pyRound q := by
  have hf : n ≤ ⌊q⌋ := Int.le_floor.mpr h
  exact le_trans hf (floor_le_pyRound q)

theorem pyRound_le_of_le (q : ℚ) (n : ℤ) (h : q ≤ (n : ℚ)) : pyRound q ≤ n := by
  have hf : ⌊q⌋ ≤ n := by
    have := Int.floor_le_floor h
    simpa using this
  rcases eq_or_lt_of_le hf with he | hlt
  · have hq : (n : ℚ) ≤ q := by
      rw [← he]; exact Int.floor_le q
    have hqe : q = (n : ℚ) := le_antisymm h hq
    rw [hqe, pyRound_intCast]
  · exact le_trans (pyRound_le_floor_add_one q) (by omega)

/-- A tiered theme: three colors keyed by usage tier, from `THEME_CSS`. -/
structure Theme where
  low : String
  mid : String
  high : String
deriving DecidableEq, Repr

/-- The fixed theme registry `THEME_CSS` (name, low/mid/high colors). -/
def THEME_CSS : List (String × Theme) :=
  [("default", ⟨"#22c55e", "#eab308", "#ef4444"⟩),
   ("ocean",   ⟨"#06b6d4", "#3b82f6", "#a855f7"⟩),
   ("sunset",  ⟨"#eab308", "#ff8800", "#ef4444"⟩),
   ("neon",    ⟨"#4ade80", "#facc15", "#f87171"⟩),
   ("frost",   ⟨"#afffff", "#5fafff", "#ffffff"⟩),
   ("ember",   ⟨"#ffd700", "#ff5f00", "#f87171"⟩),
   ("candy",   ⟨"#ff87ff", "#af87ff", "#00ffff"⟩),
   ("pride",   ⟨"#af5fff", "#00ffaf", "#ff00af"⟩),
   ("mono",    ⟨"#d1d5db", "#d1d5db", "#ffffff"⟩),
   ("rainbow", ⟨"#ff0000", "#00ff00", "#ff00ff"⟩)]

def DIM_COLOR : String := "#3a3a3a"

def RAINBOW_COLORS : List String :=
  ["#ff0000", "#ff8800", "#ffff00", "#00ff00", "#00ccff",
   "#0066ff", "#8800ff", "#ff00ff", "#ff0066", "#ff4444"]

/-- Spec error taxonomy; `theme_lookup` models `THEME_CSS[name]` (`KeyError`
becomes `unknownTheme`), the extra-usage failures (`ValueError` /
`ZeroDivisionError`) become `invalidExtraUsage`. -/
inductive RenderError where
  | unknownTheme : String → RenderError
  | invalidExtraUsage : RenderError
deriving DecidableEq, Repr

/-- Theme registry lookup (`THEME_CSS[theme_name]` in `main`). -/
def theme_lookup (name : String) : Except RenderError Theme :=
  match THEME_CSS.find? (fun p => p.1 == name) with
  | some p => Except.ok p.2
  | none => Except.error (RenderError.unknownTheme name)

/-- `bar_color` from the source: step function with breakpoints 80 and 50. -/
def bar_color (pct : ℚ) (theme : Theme) : String :=
  if 80 ≤ pct then theme.high
  else if 50 ≤ pct then theme.mid
  else theme.low

/-- The filled-cell count of `render_bar_html`:
`filled = round(pct / 100 * width); filled = max(0, min(width, filled))`. -/
def barFilled (pct : ℚ) (width : ℕ) : ℤ :=
  max 0 (min (width : ℤ) (pyRound (pct / 100 * width)))

/-- The rainbow per-cell color expression
`RAINBOW_COLORS[(j + color_offset) % len(RAINBOW_COLORS)]`. -/
def rainbowCellColor (j color_offset : ℕ) : String :=
  RAINBOW_COLORS.getD ((j + color_offset) % RAINBOW_COLORS.length) ""

/-- The trailing dim (empty-region) span shared by both branches of
`render_bar_html`. -/
def dim_span (e_chars : String) : String :=
  "<span style=\"color:" ++ DIM_COLOR ++ "\">" ++ e_chars ++ "</span>"

/-- `render_bar_html(pct, theme, width, rainbow, color_offset)`. -/
def render_bar_html (pct : ℚ) (theme : Theme) (width : ℕ)
    (rainbow : Bool) (color_offset : ℕ) : String :=
  let filled := (barFilled pct width).toNat
  let empty := width - filled
  let e_chars := String.mk (List.replicate empty '─')
  if rainbow ∧ 0 < filled then
    let parts := String.join ((List.range filled).map (fun j =>
      "<span style=\"color:" ++ rainbowCellColor j color_offset ++ "\">━</span>"))
    parts ++ dim_span e_chars
  else
    let color := bar_color pct theme
    let f_chars := String.mk (List.replicate filled '━')
    "<span style=\"color:" ++ color ++ "\">" ++ f_chars ++ "</span>" ++ dim_span e_chars

/-- Count the occurrences of a character in a string. -/
def countChar (s : String) (c : Char) : ℕ := s.data.count c

theorem countChar_append (a b : String) (c : Char) :
    countChar (a ++ b) c = countChar a c + countChar b c := by
  have h : (a ++ b).data = a.data ++ b.data := rfl
  unfold countChar
  rw [h, List.count_append]

theorem countChar_mk (l : List Char) (c : Char) :
    countChar (String.mk l) c = l.count c := rfl

theorem countChar_foldl_append (L : List String) (s : String) (c : Char) :
    countChar (L.foldl (fun a b => a ++ b) s) c
      = countChar s c + (L.map (fun t => countChar t c)).sum := by
  induction L generalizing s with
  | nil => simp
  | cons hd tl ih =>
      simp only [List.foldl_cons, List.map_cons, List.sum_cons]
      rw [ih, countChar_append]
      omega

theorem countChar_join (L : List String) (c : Char) :
    countChar (String.join L) c = (L.map (fun t => countChar t c)).sum := by
  have h : String.join L = L.foldl (fun a b => a ++ b) "" := rfl
  have h0 : countChar "" c = 0 := rfl
  rw [h, countChar_foldl_append, h0, Nat.zero_add]

/-- The 16x12 pixel-art mascot grid `MASCOT_PIXELS`. -/
def MASCOT_PIXELS : List String :=
  ["..RRRRRRRRRRRR..",
   "..RRRRRRRRRRRR..",
   "..RDDRRRRRRDDR..",
   "..RDDRRRRRRDDR..",
   "..RRRRRRRRRRRR..",
   "RRRRRRRRRRRRRRRR",
   "RRRRRRRRRRRRRRRR",
   "..RRRRRRRRRRRR..",
   "..RRRRRRRRRRRR..",
   "..RRRRRRRRRRRR..",
   "..RR.RR..RR.RR..",
   "..RR.RR..RR.RR.."]

/-- One cell of `mascot_html`. -/
def mascot_cell (ch : Char) : String :=
  if ch = 'R' then "<span class=\"px pr\"></span>"
  else if ch = 'D' then "<span class=\"px pd\"></span>"
  else if ch = 'N' then "<span class=\"px pn\"></span>"
  else "<span class=\"px\"></span>"

/-- `mascot_html()`: all cells of all rows, joined by newline + 12 spaces. -/
def mascot_html : String :=
  String.intercalate "\n            "
    ((MASCOT_PIXELS.map (fun row => row.data)).flatten.map mascot_cell)

/-- Models Python `s.replace("£", "")`. -/
def stripPounds (s : String) : String :=
  String.mk (s.data.filter (fun c => c != '£'))

def digitVal (c : Char) : Option ℕ :=
  if c.isDigit then some (c.toNat - 48) else none

def parseDigits (cs : List Char) : Option ℕ :=
  cs.foldl (fun acc c =>
    match acc, digitVal c with
    | some n, some d => some (n * 10 + d)
    | _, _ => none) (some 0)

/-- Models Python `float(s)` on the decimal literals this program feeds it:
optional sign, decimal digits with at most one point, at least one digit.
Returns `none` where `float` raises `ValueError`. -/
def parsePyFloat (s : String) : Option ℚ :=
  let signAndBody : ℚ × List Char :=
    match s.data with
    | '-' :: t => (-1, t)
    | '+' :: t => (1, t)
    | t => (1, t)
  let sign := signAndBody.1
  let body := signAndBody.2
  let intCs := body.takeWhile (fun c => c != '.')
  let rest := body.dropWhile (fun c => c != '.')
  match rest with
  | [] =>
    if body.isEmpty then none
    else (parseDigits intCs).map (fun n => sign * (n : ℚ))
  | _ :: fracCs =>
    if fracCs.contains '.' then none
    else if intCs.isEmpty && fracCs.isEmpty then none
    else
      match parseDigits intCs, parseDigits fracCs with
      | some i, some f => some (sign * ((i : ℚ) + (f : ℚ) / 10 ^ fracCs.length))
      | _, _ => none

/-- The Python format spec 3d: decimal, right-justified to width 3. -/
def format3d (n : ℤ) : String :=
  let s := toString n
  String.mk (List.replicate (3 - s.length) ' ') ++ s

def sep_span : String := "<span class=\"sep\">|</span>"

def pulse_update_badge : String :=
  sep_span ++ "<span style=\"color:#eab308;font-weight:bold\">&#x2191; Pulse Update</span>"

def claude_update_badge : String :=
  sep_span ++ "<span style=\"color:#eab308;font-weight:bold\">&#x2191; Claude Update</span>"

/-- The `update_part` accumulation in `generate_statusline_html`
(lines 477-481: start empty, set Pulse badge, append Claude badge). -/
def statusline_update_part (show_update show_claude_update : Bool) : String :=
  let update_part := ""
  let update_part := if show_update then pulse_update_badge else update_part
  if show_claude_update then update_part ++ claude_update_badge else update_part

/-- The Session/Weekly/Context portion of the `status` f-string, shared by
both composers (everything before the extra/update parts). -/
def status_head (theme : Theme) (session_pct weekly_pct ctx_pct : ℤ)
    (reset_time : String) (is_rainbow : Bool) (color_offset : ℕ) : String :=
  let session_bar := render_bar_html (session_pct : ℚ) theme 10 is_rainbow color_offset
  let weekly_bar := render_bar_html (weekly_pct : ℚ) theme 10 is_rainbow (color_offset + 3)
  let ctx_bar := render_bar_html (ctx_pct : ℚ) theme 10 is_rainbow (color_offset + 6)
  let sp := format3d session_pct ++ "%"
  let wp := format3d weekly_pct ++ "%"
  let cp := format3d ctx_pct ++ "%"
  let reset_str := if reset_time ≠ "" then " " ++ reset_time else "       "
  "<span class=\"sl\">Session </span>" ++ session_bar
    ++ "<span class=\"sl\"> " ++ sp ++ reset_str ++ "</span>"
    ++ sep_span
    ++ "<span class=\"sl\">Weekly </span>" ++ weekly_bar
    ++ "<span class=\"sl\"> " ++ wp ++ "</span>"
    ++ sep_span
    ++ "<span class=\"sl\">Context </span>" ++ ctx_bar
    ++ "<span class=\"sl\"> " ++ cp ++ "</span>"

/-- The trailing plan/model portion of the `status` f-string. -/
def status_tail (plan model : String) : String :=
  sep_span ++ "<span class=\"sl\">" ++ plan ++ "</span>"
    ++ sep_span ++ "<span class=\"sl\">" ++ model ++ "</span>"

/-- Status-line document template, up to the `text_color` interpolation. -/
def statusline_tpl_head : String :=
  "<!DOCTYPE html>
<html>
<head>
<meta charset=\"utf-8\">
<style>
  @import url(\x27https://fonts.googleapis.com/css2?family=JetBrains+Mono:wght@400;500;700&display=swap\x27);
  * \x7b margin: 0; padding: 0; box-sizing: border-box; \x7d
  body \x7b
    background: #ffffff;
    display: flex;
    align-items: center;
    justify-content: center;
    height: 60px;
    font-family: \x27JetBrains Mono\x27, \x27Cascadia Code\x27, \x27Consolas\x27, monospace;
  \x7d
  .bar \x7b
    background: #0c0c0c;
    padding: 10px 20px;
    width: 920px;
    border-radius: 6px;
    border: 1px solid #333;
  \x7d
  .status-line \x7b
    font-size: 13px;
    line-height: 1.5;
    white-space: pre;
    letter-spacing: 0;
    font-variant-ligatures: none;
  \x7d
  .sl \x7b color: "

/-- Status-line document template, between `text_color` and `status`. -/
def statusline_tpl_mid : String :=
  "; \x7d
  .sep \x7b color: #555; padding: 0 0.3em; \x7d
</style>
</head>
<body>
  <div class=\"bar\">
    <div class=\"status-line\">"

/-- Status-line document template, after the `status` interpolation. -/
def statusline_tpl_tail : String :=
  "</div>
  </div>
</body>
</html>"

/-- `generate_statusline_html(...)`: the bare status-line composer. -/
def generate_statusline_html (theme_name : String) (theme : Theme)
    (session_pct weekly_pct ctx_pct : ℤ)
    (reset_time plan model : String) (frame_num total_frames : ℕ)
    (is_rainbow : Bool) (color_offset : ℕ)
    (show_update show_claude_update : Bool) : String :=
  let text_color := "#d1d5db"
  let update_part := statusline_update_part show_update show_claude_update
  let status := status_head theme session_pct weekly_pct ctx_pct reset_time
      is_rainbow color_offset
    ++ update_part
    ++ status_tail plan model
  statusline_tpl_head ++ text_color ++ statusline_tpl_mid ++ status ++ statusline_tpl_tail

/-- Full-mockup template, up to the `text_color` interpolation. -/
def frame_tpl_1 : String :=
  "<!DOCTYPE html>
<html>
<head>
<meta charset=\"utf-8\">
<style>
  @import url(\x27https://fonts.googleapis.com/css2?family=JetBrains+Mono:wght@400;500;700&display=swap\x27);
  * \x7b margin: 0; padding: 0; box-sizing: border-box; \x7d
  body \x7b
    background: #ffffff;
    display: flex;
    align-items: center;
    justify-content: center;
    height: 100vh;
    font-family: \x27JetBrains Mono\x27, \x27Cascadia Code\x27, \x27Consolas\x27, monospace;
  \x7d
  .terminal \x7b
    background: #0c0c0c;
    border-radius: 8px;
    width: 920px;
    height: 430px;
    box-shadow: 0 8px 30px rgba(0,0,0,0.15), 0 0 0 1px rgba(0,0,0,0.08);
    overflow: hidden;
    display: flex;
    flex-direction: column;
    position: relative;
  \x7d
  .titlebar \x7b
    background: #202020;
    padding: 7px 12px;
    display: flex;
    align-items: center;
    border-bottom: 1px solid #2a2a2a;
    flex-shrink: 0;
  \x7d
  .tab \x7b
    background: #0c0c0c;
    color: #aaa;
    font-size: 11px;
    padding: 5px 14px;
    border-radius: 6px 6px 0 0;
    display: flex;
    align-items: center;
    gap: 6px;
    border: 1px solid #2a2a2a;
    border-bottom: none;
    margin-bottom: -1px;
  \x7d
  .tab-icon \x7b color: #0078d4; font-size: 13px; \x7d
  .spacer \x7b flex: 1; \x7d
  .win-controls \x7b display: flex; gap: 0; \x7d
  .win-btn \x7b
    color: #888;
    font-size: 11px;
    padding: 4px 16px;
    display: inline-flex;
    align-items: center;
    justify-content: center;
  \x7d

  .body \x7b flex: 1; display: flex; flex-direction: column; overflow: hidden; \x7d

  .conversation \x7b
    flex: 1;
    padding: 14px 20px;
    overflow: hidden;
  \x7d

  /* ── Header ── */
  .cc-title \x7b
    color: #d4a574;
    font-size: 12px;
    margin-bottom: 10px;
    padding-bottom: 8px;
    border-bottom: 1px solid #d4a57433;
  \x7d

  /* ── Two-column welcome ── */
  .welcome-row \x7b
    display: flex;
    gap: 0;
    margin-bottom: 12px;
    border: 1px solid #d4a57455;
    border-radius: 6px;
    overflow: hidden;
  \x7d
  .welcome-left \x7b
    flex: 0 0 200px;
    display: flex;
    flex-direction: column;
    align-items: center;
    padding: 12px 10px;
    border-right: 1px solid #d4a57433;
  \x7d
  .welcome-greeting \x7b
    color: #e0e0e0;
    font-size: 12px;
    font-weight: 500;
    margin-bottom: 10px;
    text-align: center;
  \x7d
  .welcome-right \x7b
    flex: 1;
    padding: 12px 14px;
  \x7d

  /* Pixel mascot */
  .mascot \x7b
    display: grid;
    grid-template-columns: repeat(16, 6px);
    grid-template-rows: repeat(12, 6px);
    gap: 1px;
    margin-bottom: 8px;
  \x7d
  .px \x7b width: 6px; height: 6px; background: transparent; \x7d
  .pr \x7b background: #d4735c; \x7d
  .pd \x7b background: #1a1a1a; \x7d
  .pn \x7b background: #b85e48; \x7d

  .welcome-meta \x7b
    color: #888;
    font-size: 10px;
    text-align: center;
    line-height: 1.5;
  \x7d

  /* Right column */
  .section-title \x7b
    color: #d4a574;
    font-size: 11px;
    margin-bottom: 4px;
    font-weight: 500;
  \x7d
  .tip-text \x7b
    color: #888;
    font-size: 10.5px;
    line-height: 1.6;
    margin-bottom: 10px;
  \x7d
  .recent-text \x7b
    color: #666;
    font-size: 10.5px;
  \x7d

  /* ── User message + Claude reply ── */
  .user-msg \x7b
    margin-bottom: 8px;
    margin-top: 4px;
  \x7d
  .user-prompt \x7b
    display: flex;
    align-items: center;
    gap: 6px;
  \x7d
  .user-prompt .arrow \x7b color: #b388ff; font-size: 12px; \x7d
  .user-text \x7b
    color: #e0e0e0;
    font-size: 12.5px;
    font-weight: 500;
  \x7d

  .claude-reply \x7b
    margin-bottom: 8px;
  \x7d
  .claude-reply .dot \x7b color: #b388ff; font-size: 12px; \x7d
  .claude-reply-text \x7b
    color: #ccc;
    font-size: 12px;
    display: flex;
    align-items: center;
    gap: 5px;
  \x7d

  /* Prompt cursor */
  .prompt-line \x7b
    display: flex;
    align-items: center;
    gap: 6px;
    font-size: 13px;
  \x7d
  .prompt-arrow \x7b color: #b388ff; \x7d
  .cursor \x7b
    display: inline-block;
    width: 8px;
    height: 15px;
    background: #b388ff;
    opacity: 0.7;
  \x7d

  /* ── Divider ── */
  .divider \x7b
    border-top: 1px solid #222;
    flex-shrink: 0;
  \x7d

  /* ── Status bar ── */
  .status-area \x7b
    padding: 8px 20px 6px 20px;
    flex-shrink: 0;
  \x7d
  .status-line \x7b
    font-size: 11.5px;
    line-height: 1.5;
    white-space: pre;
    letter-spacing: 0;
    font-variant-ligatures: none;
  \x7d
  .sl \x7b color: "

/-- Full-mockup template, between `text_color` and the first `badge_color`. -/
def frame_tpl_2 : String :=
  "; \x7d
  .sep \x7b color: #555; padding: 0 0.3em; \x7d

  /* ── Mode indicator ── */
  .mode-bar \x7b
    padding: 2px 20px 10px 20px;
    display: flex;
    align-items: center;
    gap: 8px;
    flex-shrink: 0;
  \x7d
  .mode-icon \x7b color: #b388ff; font-size: 11px; \x7d
  .mode-text \x7b color: #666; font-size: 11px; \x7d
  .mode-hint \x7b color: #444; font-size: 10px; \x7d

  /* ── Theme badge ── */
  .theme-overlay \x7b
    position: absolute;
    bottom: 12px;
    right: 20px;
    display: flex;
    align-items: center;
    gap: 8px;
  \x7d
  .theme-badge \x7b
    display: inline-block;
    background: rgba(255,255,255,0.06);
    border: 1px solid "

/-- Full-mockup template, between the two `badge_color` interpolations. -/
def frame_tpl_3 : String :=
  "44;
    color: "

/-- Full-mockup template, between `badge_color` and `mascot`. -/
def frame_tpl_4 : String :=
  ";
    padding: 3px 12px;
    border-radius: 4px;
    font-size: 10px;
    letter-spacing: 1.5px;
    text-transform: uppercase;
    font-weight: 500;
  \x7d
  .frame-counter \x7b
    color: #444;
    font-size: 10px;
    letter-spacing: 1px;
  \x7d
</style>
</head>
<body>
  <div class=\"terminal\">
    <div class=\"titlebar\">
      <div class=\"tab\"><span class=\"tab-icon\">&#x276F;</span> Windows PowerShell</div>
      <div class=\"spacer\"></div>
      <div class=\"win-controls\">
        <span class=\"win-btn\">&#x2500;</span>
        <span class=\"win-btn\">&#x25A1;</span>
        <span class=\"win-btn close\">&#x2715;</span>
      </div>
    </div>

    <div class=\"body\">
      <div class=\"conversation\">
        <div class=\"cc-title\">Claude Code v2.1.36</div>

        <div class=\"welcome-row\">
          <div class=\"welcome-left\">
            <div class=\"welcome-greeting\">Welcome back NoobyGains!</div>
            <div class=\"mascot\">
              "

/-- Full-mockup template, between `mascot` and `model`. -/
def frame_tpl_5 : String :=
  "
            </div>
            <div class=\"welcome-meta\">
              "

/-- Full-mockup template, between `model` and `status`. -/
def frame_tpl_6 : String :=
  " &middot; Claude Max<br>
              C:\\Users\\David
            </div>
          </div>
          <div class=\"welcome-right\">
            <div class=\"section-title\">Tips for getting started</div>
            <div class=\"tip-text\">
              Run <span style=\"color:#b388ff\">/init</span> to create a CLAUDE.md file with instructions for Claude<br>
              Note: You have launched claude in your home directory. For the best<br>
              experience, navigate to a project folder first.
            </div>
            <div class=\"section-title\">Recent activity</div>
            <div class=\"recent-text\">No recent activity</div>
          </div>
        </div>

        <div class=\"user-msg\">
          <div class=\"user-prompt\">
            <span class=\"arrow\">&#x276F;</span>
            <span class=\"user-text\">hello</span>
          </div>
        </div>

        <div class=\"claude-reply\">
          <div class=\"claude-reply-text\">
            <span class=\"dot\">&#x25CF;</span>
            Hello! How can I help you today?
          </div>
        </div>

        <div class=\"prompt-line\">
          <span class=\"prompt-arrow\">&#x276F;</span>
          <span class=\"cursor\"></span>
        </div>
      </div>

      <div class=\"divider\"></div>
      <div class=\"status-area\">
        <div class=\"status-line\">"

/-- Full-mockup template, between `status` and `theme_name`. -/
def frame_tpl_7 : String :=
  "</div>
      </div>
      <div class=\"mode-bar\">
        <span class=\"mode-icon\">&#x23F5;&#x23F5;</span>
        <span class=\"mode-text\">auto-accept edits</span>
        <span class=\"mode-hint\">(shift+tab to cycle)</span>
      </div>
    </div>

    <div class=\"theme-overlay\">
      <span class=\"theme-badge\">"

/-- Full-mockup template, between `theme_name` and the frame counter. -/
def frame_tpl_8 : String :=
  "</span>
      <span class=\"frame-counter\">"

/-- Full-mockup template, after the frame counter. -/
def frame_tpl_9 : String :=
  "</span>
    </div>
  </div>
</body>
</html>"

/-- The extra-usage fragment appended to `status` when an extra-usage pair is
supplied and parses: separator, label, fourth bar at `color_offset + 9`,
and the raw used/limit strings. -/
def extra_fragment (theme : Theme) (is_rainbow : Bool) (color_offset : ℕ)
    (extra_used extra_limit : String) (u l : ℚ) : String :=
  let extra_pct := 100 * u / l
  let extra_bar := render_bar_html extra_pct theme 10 is_rainbow (color_offset + 9)
  sep_span
    ++ "<span class=\"sl\">Extra </span>" ++ extra_bar
    ++ "<span class=\"sl\"> " ++ extra_used ++ "/" ++ extra_limit ++ "</span>"

/-- The `extra_part` computation of `generate_frame_html` (lines 99-107):
skipped when either string is empty (Python truthiness); otherwise both
values are parsed after stripping the currency marker
(`float(extra_used.replace("£", ""))`), and the division
`100 * used / limit` fails on a zero limit. `ValueError` and
`ZeroDivisionError` are both `invalidExtraUsage` in the spec taxonomy. -/
def extraPart (theme : Theme) (is_rainbow : Bool) (color_offset : ℕ)
    (extra_used extra_limit : String) : Except RenderError String :=
  if extra_used ≠ "" ∧ extra_limit ≠ "" then
    match parsePyFloat (stripPounds extra_used), parsePyFloat (stripPounds extra_limit) with
    | some u, some l =>
        if l = 0 then Except.error RenderError.invalidExtraUsage
        else Except.ok (extra_fragment theme is_rainbow color_offset extra_used extra_limit u l)
    | _, _ => Except.error RenderError.invalidExtraUsage
  else Except.ok ""

/-- `generate_frame_html(...)`: the full terminal-mockup composer. -/
def generate_frame_html (theme_name : String) (theme : Theme)
    (session_pct weekly_pct ctx_pct : ℤ)
    (reset_time plan model : String) (frame_num total_frames : ℕ) (desc : String)
    (is_rainbow : Bool) (color_offset : ℕ)
    (extra_used extra_limit : String) (show_update : Bool) :
    Except RenderError String :=
  let text_color := "#d1d5db"
  match extraPart theme is_rainbow color_offset extra_used extra_limit with
  | Except.error e => Except.error e
  | Except.ok extra_part =>
    let update_part := if show_update then pulse_update_badge else ""
    let status := status_head theme session_pct weekly_pct ctx_pct reset_time
        is_rainbow color_offset
      ++ extra_part
      ++ update_part
      ++ status_tail plan model
    let badge_color := theme.low
    let mascot := mascot_html
    Except.ok (frame_tpl_1 ++ text_color ++ frame_tpl_2 ++ badge_color
      ++ frame_tpl_3 ++ badge_color ++ frame_tpl_4 ++ mascot ++ frame_tpl_5
      ++ model ++ frame_tpl_6 ++ status ++ frame_tpl_7 ++ theme_name
      ++ frame_tpl_8 ++ toString frame_num ++ "/" ++ toString total_frames
      ++ frame_tpl_9)

example : countChar "<span style=\"color:#ff0000\">━</span>" '━' = 1 := by decide

/-- A string containing neither bar glyph (filled U+2501, empty U+2500). -/
def glyph_free (s : String) : Prop :=
  countChar s '━' = 0 ∧ countChar s '─' = 0

instance (s : String) : Decidable (glyph_free s) := by
  unfold glyph_free; infer_instance

/-- All three colors of a theme are glyph-free (true of every registered
theme; needed so color strings cannot be confused with bar cells). -/
def theme_glyph_free (t : Theme) : Prop :=
  glyph_free t.low ∧ glyph_free t.mid ∧ glyph_free t.high

instance (t : Theme) : Decidable (theme_glyph_free t) := by
  unfold theme_glyph_free; infer_instance

theorem countChar_replicate (n : ℕ) (ch c : Char) :
    countChar (String.mk (List.replicate n ch)) c = if ch = c then n else 0 := by
  rw [countChar_mk, List.count_replicate]
  simp [beq_iff_eq]

theorem glyph_free_bar_color (pct : ℚ) (theme : Theme)
    (ht : theme_glyph_free theme) : glyph_free (bar_color pct theme) := by
  unfold bar_color
  split_ifs
  · exact ht.2.2
  · exact ht.2.1
  · exact ht.1

theorem mem_rainbow_glyph_free : ∀ s ∈ RAINBOW_COLORS, glyph_free s := by decide

theorem rainbowCellColor_glyph_free (j off : ℕ) :
    glyph_free (rainbowCellColor j off) := by
  unfold rainbowCellColor
  have hlt : (j + off) % RAINBOW_COLORS.length < RAINBOW_COLORS.length :=
    Nat.mod_lt _ (by decide)
  rw [List.getD_eq_getElem RAINBOW_COLORS "" hlt]
  exact mem_rainbow_glyph_free _ (List.getElem_mem hlt)

theorem countChar_dim_span (e : String) (c : Char) (hc : c = '━' ∨ c = '─') :
    countChar (dim_span e) c = countChar e c := by
  unfold dim_span
  simp only [countChar_append]
  rcases hc with h | h <;> subst h
  · have h1 : countChar "<span style=\"color:" '━' = 0 := by decide
    have h2 : countChar DIM_COLOR '━' = 0 := by decide
    have h3 : countChar "\">" '━' = 0 := by decide
    have h4 : countChar "</span>" '━' = 0 := by decide
    omega
  · have h1 : countChar "<span style=\"color:" '─' = 0 := by decide
    have h2 : countChar DIM_COLOR '─' = 0 := by decide
    have h3 : countChar "\">" '─' = 0 := by decide
    have h4 : countChar "</span>" '─' = 0 := by decide
    omega

theorem countChar_rainbow_cell (j off : ℕ) :
    countChar ("<span style=\"color:" ++ rainbowCellColor j off ++ "\">━</span>") '━' = 1
    ∧ countChar ("<span style=\"color:" ++ rainbowCellColor j off ++ "\">━</span>") '─' = 0 := by
  have hg := rainbowCellColor_glyph_free j off
  rw [glyph_free] at hg
  constructor
  · simp only [countChar_append]
    have h1 : countChar "<span style=\"color:" '━' = 0 := by decide
    have h3 : countChar "\">━</span>" '━' = 1 := by decide
    omega
  · simp only [countChar_append]
    have h1 : countChar "<span style=\"color:" '─' = 0 := by decide
    have h3 : countChar "\">━</span>" '─' = 0 := by decide
    omega

theorem countChar_rainbow_parts (f off : ℕ) (c : Char) (k : ℕ)
    (hcell : ∀ j, countChar
      ("<span style=\"color:" ++ rainbowCellColor j off ++ "\">━</span>") c = k) :
    countChar (String.join ((List.range f).map (fun j =>
      "<span style=\"color:" ++ rainbowCellColor j off ++ "\">━</span>"))) c = f * k := by
  rw [countChar_join, List.map_map]
  have h : ∀ j ∈ List.range f,
      ((fun t => countChar t c) ∘ (fun j =>
        "<span style=\"color:" ++ rainbowCellColor j off ++ "\">━</span>")) j
        = (fun _ => k) j := by
    intro j _
    exact hcell j
  rw [List.map_congr_left h]
  simp [List.map_const', mul_comm]

theorem barFilled_nonneg (pct : ℚ) (w : ℕ) : 0 ≤ barFilled pct w :=
  le_max_left 0 _

theorem barFilled_le (pct : ℚ) (w : ℕ) : barFilled pct w ≤ (w : ℤ) :=
  max_le (Int.ofNat_nonneg w) (min_le_left _ _)

theorem barFilled_toNat_le (pct : ℚ) (w : ℕ) : (barFilled pct w).toNat ≤ w :=
  Int.toNat_le.mpr (barFilled_le pct w)

theorem countChar_render_bar (pct : ℚ) (theme : Theme) (w : ℕ) (rb : Bool)
    (off : ℕ) (ht : theme_glyph_free theme) :
    countChar (render_bar_html pct theme w rb off) '━' = (barFilled pct w).toNat
    ∧ countChar (render_bar_html pct theme w rb off) '─' = w - (barFilled pct w).toNat := by
  have hcolor := glyph_free_bar_color pct theme ht
  rw [glyph_free] at hcolor
  simp only [render_bar_html]
  split
  · constructor
    · rw [countChar_append,
        countChar_rainbow_parts _ off '━' 1 (fun j => (countChar_rainbow_cell j off).1),
        countChar_dim_span _ _ (Or.inl rfl), countChar_replicate]
      simp
    · rw [countChar_append,
        countChar_rainbow_parts _ off '─' 0 (fun j => (countChar_rainbow_cell j off).2),
        countChar_dim_span _ _ (Or.inr rfl), countChar_replicate]
      simp
  · constructor
    · simp only [countChar_append]
      rw [countChar_dim_span _ _ (Or.inl rfl), countChar_replicate, countChar_replicate]
      have h1 : countChar "<span style=\"color:" '━' = 0 := by decide
      have h3 : countChar "\">" '━' = 0 := by decide
      have h4 : countChar "</span>" '━' = 0 := by decide
      simp [h1, h3, h4, hcolor.1]
    · simp only [countChar_append]
      rw [countChar_dim_span _ _ (Or.inr rfl), countChar_replicate, countChar_replicate]
      have h1 : countChar "<span style=\"color:" '─' = 0 := by decide
      have h3 : countChar "\">" '─' = 0 := by decide
      have h4 : countChar "</span>" '─' = 0 := by decide
      simp [h1, h3, h4, hcolor.2]

theorem barFilled_eq_pyRound (pct : ℚ) (w : ℕ) (h0 : 0 ≤ pct) (h1 : pct ≤ 100) :
    barFilled pct w = pyRound (pct / 100 * w) := by
  unfold barFilled
  have hq0 : (0 : ℚ) ≤ pct / 100 * w := by positivity
  have hd : pct / 100 ≤ 1 := by
    rw [div_le_one (by norm_num : (0:ℚ) < 100)]
    exact h1
  have hqw : pct / 100 * w ≤ (w : ℚ) := by
    calc pct / 100 * w ≤ 1 * w := by
          exact mul_le_mul_of_nonneg_right hd (by positivity)
      _ = (w : ℚ) := one_mul _
  have hl : (0 : ℤ) ≤ pyRound (pct / 100 * w) :=
    le_pyRound_of_le 0 _ (by exact_mod_cast hq0)
  have hu : pyRound (pct / 100 * w) ≤ (w : ℤ) :=
    pyRound_le_of_le _ _ (by exact_mod_cast hqw)
  rw [min_eq_right hu, max_eq_right hl]

/-- C1: for pct in [0,100] and width w ≥ 1 the rendered bar has exactly
round(pct/100*w) filled glyphs — the round-then-clamp expression with the
clamp a no-op in range — and w minus that many empty glyphs, summing to w. -/
theorem render_bar_cell_counts (pct : ℚ) (theme : Theme) (w : ℕ) (rb : Bool)
    (off : ℕ) (ht : theme_glyph_free theme)
    (h0 : 0 ≤ pct) (h1 : pct ≤ 100) (hw : 1 ≤ w) :
    barFilled pct w = pyRound (pct / 100 * w)
    ∧ 0 ≤ barFilled pct w ∧ barFilled pct w ≤ (w : ℤ)
    ∧ countChar (render_bar_html pct theme w rb off) '━' = (barFilled pct w).toNat
    ∧ countChar (render_bar_html pct theme w rb off) '─' = w - (barFilled pct w).toNat
    ∧ countChar (render_bar_html pct theme w rb off) '━'
        + countChar (render_bar_html pct theme w rb off) '─' = w := by
  have hc := countChar_render_bar pct theme w rb off ht
  refine ⟨barFilled_eq_pyRound pct w h0 h1, barFilled_nonneg pct w,
    barFilled_le pct w, hc.1, hc.2, ?_⟩
  rw [hc.1, hc.2]
  have := barFilled_toNat_le pct w
  omega

/-- Witness for C1: the spec scenario pct = 62, width 10, default theme. -/
theorem render_bar_cell_counts_witness :
    theme_glyph_free ⟨"#22c55e", "#eab308", "#ef4444"⟩
    ∧ (0 : ℚ) ≤ 62 ∧ (62 : ℚ) ≤ 100 ∧ 1 ≤ 10
    ∧ (barFilled 62 10 = pyRound (62 / 100 * 10)
       ∧ 0 ≤ barFilled 62 10 ∧ barFilled 62 10 ≤ (10 : ℤ)
       ∧ countChar (render_bar_html 62 ⟨"#22c55e", "#eab308", "#ef4444"⟩ 10 false 0) '━'
           = (barFilled 62 10).toNat
       ∧ countChar (render_bar_html 62 ⟨"#22c55e", "#eab308", "#ef4444"⟩ 10 false 0) '─'
           = 10 - (barFilled 62 10).toNat
       ∧ countChar (render_bar_html 62 ⟨"#22c55e", "#eab308", "#ef4444"⟩ 10 false 0) '━'
           + countChar (render_bar_html 62 ⟨"#22c55e", "#eab308", "#ef4444"⟩ 10 false 0) '─'
           = 10) :=
  ⟨by decide, by decide, by decide, by decide,
   render_bar_cell_counts 62 ⟨"#22c55e", "#eab308", "#ef4444"⟩ 10 false 0
     (by decide) (by decide) (by decide) (by decide)⟩

theorem bar_color_of_ge80 (pct : ℚ) (theme : Theme) (h : 80 ≤ pct) :
    bar_color pct theme = theme.high := by
  unfold bar_color; rw [if_pos h]

theorem bar_color_of_lt50 (pct : ℚ) (theme : Theme) (h : pct < 50) :
    bar_color pct theme = theme.low := by
  unfold bar_color
  rw [if_neg (by linarith), if_neg (by linarith)]

theorem render_bar_congr (p1 p2 : ℚ) (theme : Theme) (w : ℕ) (rb : Bool)
    (off : ℕ) (hF : barFilled p1 w = barFilled p2 w)
    (hC : bar_color p1 theme = bar_color p2 theme) :
    render_bar_html p1 theme w rb off = render_bar_html p2 theme w rb off := by
  unfold render_bar_html
  rw [hF, hC]

theorem barFilled_of_neg (pct : ℚ) (w : ℕ) (h : pct < 0) : barFilled pct w = 0 := by
  unfold barFilled
  have hq : pct / 100 * w ≤ 0 := by
    have hd : pct / 100 ≤ 0 := by
      apply div_nonpos_of_nonpos_of_nonneg (le_of_lt h)
      norm_num
    calc pct / 100 * w ≤ 0 * w := mul_le_mul_of_nonneg_right hd (by positivity)
      _ = 0 := zero_mul _
  have hr : pyRound (pct / 100 * w) ≤ 0 := pyRound_le_of_le _ 0 (by exact_mod_cast hq)
  rw [min_eq_right (le_trans hr (Int.ofNat_nonneg w))]
  exact max_eq_left hr

theorem barFilled_zero (w : ℕ) : barFilled 0 w = 0 := by
  unfold barFilled
  have hq : (0 : ℚ) / 100 * w = ((0 : ℤ) : ℚ) := by norm_num
  rw [hq, pyRound_intCast]
  rw [min_eq_right (Int.ofNat_nonneg w)]
  exact max_self 0

theorem barFilled_of_over (pct : ℚ) (w : ℕ) (h : 100 < pct) : barFilled pct w = w := by
  unfold barFilled
  have hd : (1 : ℚ) ≤ pct / 100 := by
    rw [le_div_iff₀ (by norm_num : (0:ℚ) < 100)]
    linarith
  have hq : (w : ℚ) ≤ pct / 100 * w := by
    calc (w : ℚ) = 1 * w := (one_mul _).symm
      _ ≤ pct / 100 * w := mul_le_mul_of_nonneg_right hd (by positivity)
  have hr : (w : ℤ) ≤ pyRound (pct / 100 * w) := le_pyRound_of_le _ _ (by exact_mod_cast hq)
  rw [min_eq_left hr]
  exact max_eq_right (Int.ofNat_nonneg w)

theorem barFilled_hundred (w : ℕ) : barFilled 100 w = w := by
  unfold barFilled
  have hq : (100 : ℚ) / 100 * w = ((w : ℤ) : ℚ) := by push_cast; ring
  rw [hq, pyRound_intCast]
  rw [min_self]
  exact max_eq_right (Int.ofNat_nonneg w)

/-- C3: out-of-range percentages are clamped — for any theme, width and
mode, a negative pct renders byte-identically to pct = 0 and a pct above 100
renders byte-identically to pct = 100 (same fill counts and same colors);
the renderer is total, so no error is possible. -/
theorem render_bar_out_of_range (pct : ℚ) (theme : Theme) (w : ℕ) (rb : Bool)
    (off : ℕ) (hw : 1 ≤ w) :
    (pct < 0 → render_bar_html pct theme w rb off = render_bar_html 0 theme w rb off)
    ∧ (100 < pct →
        render_bar_html pct theme w rb off = render_bar_html 100 theme w rb off) := by
  constructor
  · intro h
    apply render_bar_congr
    · rw [barFilled_of_neg pct w h, barFilled_zero]
    · rw [bar_color_of_lt50 pct theme (by linarith), bar_color_of_lt50 0 theme (by norm_num)]
  · intro h
    apply render_bar_congr
    · rw [barFilled_of_over pct w h, barFilled_hundred]
    · rw [bar_color_of_ge80 pct theme (by linarith), bar_color_of_ge80 100 theme (by norm_num)]

/-- Witness for C3 at pct = -5 and pct = 150, width 10, default theme. -/
theorem render_bar_out_of_range_witness :
    render_bar_html (-5) ⟨"#22c55e", "#eab308", "#ef4444"⟩ 10 false 0
      = render_bar_html 0 ⟨"#22c55e", "#eab308", "#ef4444"⟩ 10 false 0
    ∧ render_bar_html 150 ⟨"#22c55e", "#eab308", "#ef4444"⟩ 10 true 3
      = render_bar_html 100 ⟨"#22c55e", "#eab308", "#ef4444"⟩ 10 true 3 :=
  ⟨(render_bar_out_of_range (-5) ⟨"#22c55e", "#eab308", "#ef4444"⟩ 10 false 0
      (by decide)).1 (by decide),
   (render_bar_out_of_range 150 ⟨"#22c55e", "#eab308", "#ef4444"⟩ 10 true 3
      (by decide)).2 (by decide)⟩

/-- C4: in rainbow mode the cell at index j with offset r is colored
palette[(j+r) mod 10], so cell colors are periodic in j with period 10; and
in every mode the rendered bar ends with the empty region as a single span
in the fixed dim color. -/
theorem rainbow_periodic_dim_empty :
    (∀ j r : ℕ, rainbowCellColor j r = RAINBOW_COLORS.getD ((j + r) % 10) "")
    ∧ (∀ j r : ℕ, rainbowCellColor (j + 10) r = rainbowCellColor j r)
    ∧ (∀ (pct : ℚ) (theme : Theme) (w : ℕ) (rb : Bool) (off : ℕ), ∃ p : String,
        render_bar_html pct theme w rb off
          = p ++ dim_span (String.mk
              (List.replicate (w - (barFilled pct w).toNat) '─'))) := by
  refine ⟨?_, ?_, ?_⟩
  · intro j r; rfl
  · intro j r
    unfold rainbowCellColor
    have hL : RAINBOW_COLORS.length = 10 := rfl
    rw [hL]
    congr 1
    omega
  · intro pct theme w rb off
    simp only [render_bar_html]
    split
    · exact ⟨_, rfl⟩
    · exact ⟨_, rfl⟩

/-- C2: the tier color is a pure step function of pct with breakpoints at 50
and 80 (pct ≥ 80 high, 50 ≤ pct < 80 mid, pct < 50 low); in tiered
(non-rainbow) mode the entire filled region of the rendered bar is one span
in exactly that color. -/
theorem bar_color_step (pct : ℚ) (theme : Theme) :
    (80 ≤ pct → bar_color pct theme = theme.high)
    ∧ (50 ≤ pct → pct < 80 → bar_color pct theme = theme.mid)
    ∧ (pct < 50 → bar_color pct theme = theme.low)
    ∧ (∀ w off : ℕ, ∃ rest : String,
        render_bar_html pct theme w false off
          = "<span style=\"color:" ++ bar_color pct theme ++ rest) := by
  refine ⟨?_, ?_, ?_, ?_⟩
  · intro h; unfold bar_color; rw [if_pos h]
  · intro h1 h2; unfold bar_color
    rw [if_neg (by linarith), if_pos h1]
  · intro h; unfold bar_color
    rw [if_neg (by linarith), if_neg (by linarith)]
  · intro w off
    refine ⟨"\">" ++ String.mk (List.replicate ((barFilled pct w).toNat) '━')
      ++ ("</span>" ++ dim_span (String.mk
          (List.replicate (w - (barFilled pct w).toNat) '─'))), ?_⟩
    unfold render_bar_html
    simp only [Bool.false_eq_true, false_and, if_false, String.append_assoc]

/-- Witness for C2 at the concrete breakpoints 49, 50, 79, 80. -/
theorem bar_color_step_witness :
    bar_color 49 ⟨"#22c55e", "#eab308", "#ef4444"⟩ = "#22c55e"
    ∧ bar_color 50 ⟨"#22c55e", "#eab308", "#ef4444"⟩ = "#eab308"
    ∧ bar_color 79 ⟨"#22c55e", "#eab308", "#ef4444"⟩ = "#eab308"
    ∧ bar_color 80 ⟨"#22c55e", "#eab308", "#ef4444"⟩ = "#ef4444" :=
  ⟨(bar_color_step 49 ⟨"#22c55e", "#eab308", "#ef4444"⟩).2.2.1 (by decide),
   (bar_color_step 50 ⟨"#22c55e", "#eab308", "#ef4444"⟩).2.1 (by decide) (by decide),
   (bar_color_step 79 ⟨"#22c55e", "#eab308", "#ef4444"⟩).2.1 (by decide) (by decide),
   (bar_color_step 80 ⟨"#22c55e", "#eab308", "#ef4444"⟩).1 (by decide)⟩

/-- C6: theme lookup succeeds exactly on the fixed registered names, returns
the registered theme for its name, and fails with the unknown-theme error on
every other name. The registry itself is an immutable constant; no operation
of the embedding takes or returns a modified registry. -/
theorem theme_lookup_spec (name : String) :
    ((theme_lookup name).isOk ↔ name ∈ THEME_CSS.map Prod.fst)
    ∧ (∀ t, theme_lookup name = Except.ok t → (name, t) ∈ THEME_CSS)
    ∧ (name ∉ THEME_CSS.map Prod.fst →
        theme_lookup name = Except.error (RenderError.unknownTheme name)) := by
  unfold theme_lookup
  cases hf : THEME_CSS.find? (fun p => p.1 == name) with
  | some p =>
      have hmem : p ∈ THEME_CSS := List.mem_of_find?_eq_some hf
      have hp1 : p.1 = name := by
        have := List.find?_some hf
        simpa using this
      have hin : name ∈ THEME_CSS.map Prod.fst := List.mem_map.mpr ⟨p, hmem, hp1⟩
      refine ⟨?_, ?_, ?_⟩
      · exact iff_of_true (by simp [Except.isOk, Except.toBool]) hin
      · intro t ht
        have h2 : p.2 = t := by simpa using ht
        have : (name, t) = p := by
          rw [← hp1, ← h2]
        rw [this]; exact hmem
      · intro hn; exact absurd hin hn
  | none =>
      have hall := List.find?_eq_none.mp hf
      refine ⟨?_, ?_, ?_⟩
      · refine iff_of_false (by simp [Except.isOk, Except.toBool]) ?_
        intro h
        rcases List.mem_map.mp h with ⟨p, hp, hfst⟩
        exact absurd (by simpa using hfst : (p.1 == name) = true) (hall p hp)
      · intro t ht; simp at ht
      · intro _; rfl

/-- Witness for C6: a registered name is found with its registered colors,
and an unregistered name yields the unknown-theme error. -/
theorem theme_lookup_spec_witness :
    ("ocean", (⟨"#06b6d4", "#3b82f6", "#a855f7"⟩ : Theme)) ∈ THEME_CSS
    ∧ theme_lookup "zebra" = Except.error (RenderError.unknownTheme "zebra") :=
  ⟨(theme_lookup_spec "ocean").2.1 ⟨"#06b6d4", "#3b82f6", "#a855f7"⟩ rfl,
   (theme_lookup_spec "zebra").2.2 (by decide)⟩

/-- C7: both composers are pure functions of their frame descriptor; invoking
either twice on the same descriptor yields byte-identical documents. -/
theorem composers_deterministic (theme_name : String) (theme : Theme)
    (session_pct weekly_pct ctx_pct : ℤ) (reset_time plan model : String)
    (frame_num total_frames : ℕ) (desc : String) (is_rainbow : Bool)
    (color_offset : ℕ) (extra_used extra_limit : String)
    (show_update show_claude_update : Bool) :
    generate_frame_html theme_name theme session_pct weekly_pct ctx_pct
        reset_time plan model frame_num total_frames desc is_rainbow
        color_offset extra_used extra_limit show_update
      = generate_frame_html theme_name theme session_pct weekly_pct ctx_pct
        reset_time plan model frame_num total_frames desc is_rainbow
        color_offset extra_used extra_limit show_update
    ∧ generate_statusline_html theme_name theme session_pct weekly_pct ctx_pct
        reset_time plan model frame_num total_frames is_rainbow color_offset
        show_update show_claude_update
      = generate_statusline_html theme_name theme session_pct weekly_pct ctx_pct
        reset_time plan model frame_num total_frames is_rainbow color_offset
        show_update show_claude_update :=
  ⟨rfl, rfl⟩

theorem extraPart_error (theme : Theme) (rb : Bool) (off : ℕ) (eu el : String)
    (h1 : eu ≠ "") (h2 : el ≠ "")
    (hbad : parsePyFloat (stripPounds eu) = none
      ∨ parsePyFloat (stripPounds el) = none
      ∨ parsePyFloat (stripPounds el) = some 0) :
    extraPart theme rb off eu el = Except.error RenderError.invalidExtraUsage := by
  unfold extraPart
  rw [if_pos ⟨h1, h2⟩]
  rcases hbad with h | h | h
  · rw [h]
  · cases hu : parsePyFloat (stripPounds eu) with
    | none => rfl
    | some u => rw [h]
  · cases hu : parsePyFloat (stripPounds eu) with
    | none => rfl
    | some u =>
        rw [h]
        simp

theorem extraPart_ok (theme : Theme) (rb : Bool) (off : ℕ) (eu el : String)
    (u l : ℚ) (h1 : eu ≠ "") (h2 : el ≠ "")
    (hu : parsePyFloat (stripPounds eu) = some u)
    (hl : parsePyFloat (stripPounds el) = some l) (hl0 : l ≠ 0) :
    extraPart theme rb off eu el
      = Except.ok (extra_fragment theme rb off eu el u l) := by
  unfold extraPart
  rw [if_pos ⟨h1, h2⟩, hu, hl]
  simp [hl0]

/-- C5: with a supplied extra-usage pair, full-mockup composition fails with
the invalid-extra-usage error whenever either value fails to parse as
numeric after stripping the currency marker, or the limit parses to zero. -/
theorem generate_frame_extra_usage_error (theme_name : String) (theme : Theme)
    (session_pct weekly_pct ctx_pct : ℤ) (reset_time plan model : String)
    (frame_num total_frames : ℕ) (desc : String) (is_rainbow : Bool)
    (color_offset : ℕ) (extra_used extra_limit : String) (show_update : Bool)
    (h1 : extra_used ≠ "") (h2 : extra_limit ≠ "")
    (hbad : parsePyFloat (stripPounds extra_used) = none
      ∨ parsePyFloat (stripPounds extra_limit) = none
      ∨ parsePyFloat (stripPounds extra_limit) = some 0) :
    generate_frame_html theme_name theme session_pct weekly_pct ctx_pct
        reset_time plan model frame_num total_frames desc is_rainbow
        color_offset extra_used extra_limit show_update
      = Except.error RenderError.invalidExtraUsage := by
  simp only [generate_frame_html]
  rw [extraPart_error theme is_rainbow color_offset extra_used extra_limit h1 h2 hbad]

/-- Witness for C5: the pair ("£0.00", "£0.00") — the limit parses to zero
and composition fails with the invalid-extra-usage error. -/
theorem generate_frame_extra_usage_error_witness :
    ("£0.00" : String) ≠ ""
    ∧ parsePyFloat (stripPounds "£0.00") = some 0
    ∧ generate_frame_html "default" ⟨"#22c55e", "#eab308", "#ef4444"⟩ 12 6 8
        "4h 52m" "Max 20x" "Opus 4.6" 1 46 "low usage" false 0
        "£0.00" "£0.00" false
      = Except.error RenderError.invalidExtraUsage := by
  have hs : stripPounds "£0.00" = "0.00" := by decide
  have hp : parsePyFloat (stripPounds "£0.00") = some 0 := by
    rw [hs]
    show some (1 * (((0 : ℕ) : ℚ) + ((0 : ℕ) : ℚ) / 10 ^ 2)) = some 0
    norm_num
  exact ⟨by decide, hp,
    generate_frame_extra_usage_error "default" ⟨"#22c55e", "#eab308", "#ef4444"⟩
      12 6 8 "4h 52m" "Max 20x" "Opus 4.6" 1 46 "low usage" false 0
      "£0.00" "£0.00" false (by decide) (by decide) (Or.inr (Or.inr hp))⟩

/-- C8: the status-line composer appends zero, one or two badges from two
independent boolean flags, always Pulse Update before Claude Update; with
both flags set the document contains both fragments adjacent in that order. -/
theorem statusline_badges :
    (∀ su scu : Bool, statusline_update_part su scu
        = (if su then pulse_update_badge else "")
          ++ (if scu then claude_update_badge else ""))
    ∧ (∀ (theme_name : String) (theme : Theme) (sp wp cp : ℤ)
        (reset plan model : String) (fn tf : ℕ) (rb : Bool) (off : ℕ),
        ∃ a b : String,
          generate_statusline_html theme_name theme sp wp cp reset plan model
              fn tf rb off true true
            = a ++ (pulse_update_badge ++ claude_update_badge) ++ b) := by
  constructor
  · intro su scu
    cases su <;> cases scu <;> rfl
  · intro theme_name theme sp wp cp reset plan model fn tf rb off
    refine ⟨statusline_tpl_head ++ "#d1d5db" ++ statusline_tpl_mid
        ++ status_head theme sp wp cp reset rb off,
      status_tail plan model ++ statusline_tpl_tail, ?_⟩
    simp only [generate_statusline_html, statusline_update_part, if_true,
      String.append_assoc]

theorem extraPart_skip (theme : Theme) (rb : Bool) (off : ℕ) (eu el : String)
    (h : eu = "" ∨ el = "") : extraPart theme rb off eu el = Except.ok "" := by
  unfold extraPart
  rw [if_neg]
  intro hc
  rcases h with h | h
  · exact hc.1 h
  · exact hc.2 h

/-- C10: the fourth (extra-usage) bar segment is rendered iff both strings of
the pair are non-empty. With either empty the pair is silently skipped, no
error is raised, and the document is byte-identical to the no-extra-usage
case; with both non-empty (and the pair parsing with a non-zero limit) the
document contains the extra segment. -/
theorem frame_extra_optional :
    (∀ (theme_name : String) (theme : Theme) (session_pct weekly_pct ctx_pct : ℤ)
      (reset_time plan model : String) (frame_num total_frames : ℕ) (desc : String)
      (is_rainbow : Bool) (color_offset : ℕ) (eu el : String) (show_update : Bool),
      (eu = "" ∨ el = "") →
        generate_frame_html theme_name theme session_pct weekly_pct ctx_pct
            reset_time plan model frame_num total_frames desc is_rainbow
            color_offset eu el show_update
          = generate_frame_html theme_name theme session_pct weekly_pct ctx_pct
            reset_time plan model frame_num total_frames desc is_rainbow
            color_offset "" "" show_update
        ∧ ∃ doc, generate_frame_html theme_name theme session_pct weekly_pct
            ctx_pct reset_time plan model frame_num total_frames desc is_rainbow
            color_offset eu el show_update = Except.ok doc)
    ∧ (∀ (theme_name : String) (theme : Theme) (session_pct weekly_pct ctx_pct : ℤ)
      (reset_time plan model : String) (frame_num total_frames : ℕ) (desc : String)
      (is_rainbow : Bool) (color_offset : ℕ) (eu el : String) (show_update : Bool)
      (u l : ℚ), eu ≠ "" → el ≠ "" →
      parsePyFloat (stripPounds eu) = some u →
      parsePyFloat (stripPounds el) = some l → l ≠ 0 →
        ∃ a b : String,
          generate_frame_html theme_name theme session_pct weekly_pct ctx_pct
              reset_time plan model frame_num total_frames desc is_rainbow
              color_offset eu el show_update
            = Except.ok (a ++ extra_fragment theme is_rainbow color_offset eu el u l ++ b)) := by
  constructor
  · intro theme_name theme session_pct weekly_pct ctx_pct reset_time plan model
      frame_num total_frames desc is_rainbow color_offset eu el show_update h
    constructor
    · simp only [generate_frame_html]
      rw [extraPart_skip theme is_rainbow color_offset eu el h,
        extraPart_skip theme is_rainbow color_offset "" "" (Or.inl rfl)]
    · simp only [generate_frame_html]
      rw [extraPart_skip theme is_rainbow color_offset eu el h]
      exact ⟨_, rfl⟩
  · intro theme_name theme session_pct weekly_pct ctx_pct reset_time plan model
      frame_num total_frames desc is_rainbow color_offset eu el show_update
      u l h1 h2 hu hl hl0
    simp only [generate_frame_html]
    rw [extraPart_ok theme is_rainbow color_offset eu el u l h1 h2 hu hl hl0]
    refine ⟨frame_tpl_1 ++ "#d1d5db" ++ frame_tpl_2 ++ theme.low ++ frame_tpl_3
        ++ theme.low ++ frame_tpl_4 ++ mascot_html ++ frame_tpl_5 ++ model
        ++ frame_tpl_6
        ++ status_head theme session_pct weekly_pct ctx_pct reset_time
            is_rainbow color_offset,
      (if show_update then pulse_update_badge else "") ++ status_tail plan model
        ++ frame_tpl_7 ++ theme_name ++ frame_tpl_8 ++ toString frame_num
        ++ "/" ++ toString total_frames ++ frame_tpl_9, ?_⟩
    simp only [String.append_assoc]

/-- Witness for C10: an empty used-string is skipped without error, and the
concrete pair ("£3.10", "£37.00") renders an extra segment. -/
theorem frame_extra_optional_witness :
    (generate_frame_html "default" ⟨"#22c55e", "#eab308", "#ef4444"⟩ 12 6 8
        "4h 52m" "Max 20x" "Opus 4.6" 1 46 "low usage" false 0
        "" "£37.00" false
      = generate_frame_html "default" ⟨"#22c55e", "#eab308", "#ef4444"⟩ 12 6 8
        "4h 52m" "Max 20x" "Opus 4.6" 1 46 "low usage" false 0
        "" "" false
      ∧ ∃ doc, generate_frame_html "default" ⟨"#22c55e", "#eab308", "#ef4444"⟩
          12 6 8 "4h 52m" "Max 20x" "Opus 4.6" 1 46 "low usage" false 0
          "" "£37.00" false = Except.ok doc)
    ∧ ∃ a b : String,
        generate_frame_html "default" ⟨"#22c55e", "#eab308", "#ef4444"⟩ 12 6 8
            "4h 52m" "Max 20x" "Opus 4.6" 1 46 "low usage" false 0
            "£3.10" "£37.00" false
          = Except.ok (a ++ extra_fragment ⟨"#22c55e", "#eab308", "#ef4444"⟩
              false 0 "£3.10" "£37.00" (31/10) 37 ++ b) := by
  have hu : parsePyFloat (stripPounds "£3.10") = some (31/10) := by
    have hs : stripPounds "£3.10" = "3.10" := by decide
    rw [hs]
    show some (1 * (((3 : ℕ) : ℚ) + ((10 : ℕ) : ℚ) / 10 ^ 2)) = some (31/10)
    norm_num
  have hl : parsePyFloat (stripPounds "£37.00") = some 37 := by
    have hs : stripPounds "£37.00" = "37.00" := by decide
    rw [hs]
    show some (1 * (((37 : ℕ) : ℚ) + ((0 : ℕ) : ℚ) / 10 ^ 2)) = some 37
    norm_num
  exact ⟨frame_extra_optional.1 "default" ⟨"#22c55e", "#eab308", "#ef4444"⟩
      12 6 8 "4h 52m" "Max 20x" "Opus 4.6" 1 46 "low usage" false 0
      "" "£37.00" false (Or.inl rfl),
    frame_extra_optional.2 "default" ⟨"#22c55e", "#eab308", "#ef4444"⟩
      12 6 8 "4h 52m" "Max 20x" "Opus 4.6" 1 46 "low usage" false 0
      "£3.10" "£37.00" false (31/10) 37 (by decide) (by decide) hu hl
      (by norm_num)⟩

/-- C9: with the rainbow flag off, both composers ignore the rotation offset
entirely; any two offsets give byte-identical documents. -/
theorem offset_independent_when_not_rainbow (theme_name : String)
    (theme : Theme) (session_pct weekly_pct ctx_pct : ℤ)
    (reset_time plan model : String) (frame_num total_frames : ℕ)
    (desc : String) (extra_used extra_limit : String)
    (show_update show_claude_update : Bool) (r1 r2 : ℕ) :
    generate_frame_html theme_name theme session_pct weekly_pct ctx_pct
        reset_time plan model frame_num total_frames desc false r1
        extra_used extra_limit show_update
      = generate_frame_html theme_name theme session_pct weekly_pct ctx_pct
        reset_time plan model frame_num total_frames desc false r2
        extra_used extra_limit show_update
    ∧ generate_statusline_html theme_name theme session_pct weekly_pct ctx_pct
        reset_time plan model frame_num total_frames false r1
        show_update show_claude_update
      = generate_statusline_html theme_name theme session_pct weekly_pct ctx_pct
        reset_time plan model frame_num total_frames false r2
        show_update show_claude_update :=
  ⟨rfl, rfl⟩
example : barFilled 62 10 = 6 := by
  unfold barFilled pyRound
  norm_num
example : barFilled 88 10 = 9 := by
  unfold barFilled pyRound
  norm_num
